import Mathlib

/-
Verification of the Django-In-Production repository's specification claims.
The Python source is shallowly embedded: pure helpers become Lean functions,
ORM state becomes explicit list-passing, exceptions become Except values,
and stdout becomes a list of structured output lines.
-/

namespace DjangoInProduction

/- ## Serializer layer (04_authentication_and_authorizations/blog/serializers.py) -/

namespace BlogCustom9Serializer

/-- Candidate attribute set reaching `BlogCustom9Serializer.validate` after
field-level validation: the two fields the hook inspects. -/
structure Attrs where
  title : String
  content : String
deriving DecidableEq, Repr

/-- Embeds `BlogCustom9Serializer.validate` (serializers.py): raises
ValidationError when `attrs['title'] == attrs['content']`, otherwise returns
`attrs` unchanged. -/
def validate (attrs : Attrs) : Except String Attrs :=
  if attrs.title = attrs.content then
    Except.error "Title and content cannot have same value"
  else
    Except.ok attrs

/-- Embeds the DRF save flow around the serializer: `is_valid()` runs
`validate`; only on success is the record appended to the stored state. -/
def save (attrs : Attrs) (store : List Attrs) : List Attrs :=
  match validate attrs with
  | Except.ok a => store ++ [a]
  | Except.error _ => store

end BlogCustom9Serializer

namespace BlogCustom7Serializer

/-- Embeds `BlogCustom7Serializer.validate_title` (serializers.py): raises
ValidationError with message "illegal char" when `'_' in value`, otherwise
returns the value. Python's `in` on a one-character needle is character
membership, embedded over the string's character list. -/
def validate_title (value : String) : Except String String :=
  if value.toList.contains '_' then Except.error "illegal char"
  else Except.ok value

end BlogCustom7Serializer

/-- Embeds the module-level `demo_func_validator` (serializers.py): raises
ValidationError with message "invalid char" when `'_' in attr`, otherwise
returns the value. -/
def demo_func_validator (attr : String) : Except String String :=
  if attr.toList.contains '_' then Except.error "invalid char"
  else Except.ok attr

/- ## Theorems for claims C1 and C2 -/

/-- C1: `BlogCustom9Serializer.validate` fails if and only if the title
attribute equals the content attribute; when it fails the stored state is
unchanged by the save flow, and when it passes the attribute set is returned
unchanged. -/
theorem blogCustom9_validate_iff_and_frame :
    ∀ (attrs : BlogCustom9Serializer.Attrs) (store : List BlogCustom9Serializer.Attrs),
      (BlogCustom9Serializer.validate attrs =
          Except.error "Title and content cannot have same value" ↔
        attrs.title = attrs.content) ∧
      (attrs.title = attrs.content →
        BlogCustom9Serializer.save attrs store = store) ∧
      (attrs.title ≠ attrs.content →
        BlogCustom9Serializer.validate attrs = Except.ok attrs) := by
  intro attrs store
  refine ⟨?_, ?_, ?_⟩
  · constructor
    · intro h
      by_contra hne
      simp [BlogCustom9Serializer.validate, hne] at h
    · intro h
      simp [BlogCustom9Serializer.validate, h]
  · intro h
    simp [BlogCustom9Serializer.save, BlogCustom9Serializer.validate, h]
  · intro h
    simp [BlogCustom9Serializer.validate, h]

/-- Witness for C1 at concrete inputs: equal title/content leaves the store
unchanged, distinct title/content is returned unchanged. -/
theorem blogCustom9_validate_iff_and_frame_witness :
    BlogCustom9Serializer.save ⟨"Hello World", "Hello World"⟩ [] = [] ∧
      BlogCustom9Serializer.validate ⟨"Hello", "World"⟩ = Except.ok ⟨"Hello", "World"⟩ :=
  ⟨(blogCustom9_validate_iff_and_frame ⟨"Hello World", "Hello World"⟩ []).2.1 rfl,
   (blogCustom9_validate_iff_and_frame ⟨"Hello", "World"⟩ []).2.2 (by decide)⟩

/-- C2: the field-level title validators fail, each with its human-readable
message, if and only if the candidate value contains the character `_`;
otherwise they return the candidate value unchanged. -/
theorem title_validator_underscore :
    ∀ value : String,
      (BlogCustom7Serializer.validate_title value = Except.error "illegal char" ↔
        value.toList.contains '_' = true) ∧
      (value.toList.contains '_' = false →
        BlogCustom7Serializer.validate_title value = Except.ok value) ∧
      (demo_func_validator value = Except.error "invalid char" ↔
        value.toList.contains '_' = true) ∧
      (value.toList.contains '_' = false →
        demo_func_validator value = Except.ok value) := by
  intro value
  cases h : value.toList.contains '_' <;> simp at h <;>
    simp [BlogCustom7Serializer.validate_title, demo_func_validator, h]

/-- Witness for C2 at concrete inputs: "My_Blog" is rejected by both
validators, "text" is returned unchanged by both. -/
theorem title_validator_underscore_witness :
    BlogCustom7Serializer.validate_title "My_Blog" = Except.error "illegal char" ∧
      BlogCustom7Serializer.validate_title "text" = Except.ok "text" ∧
      demo_func_validator "My_Blog" = Except.error "invalid char" ∧
      demo_func_validator "text" = Except.ok "text" :=
  ⟨(title_validator_underscore "My_Blog").1.mpr (by decide),
   (title_validator_underscore "text").2.1 (by decide),
   (title_validator_underscore "My_Blog").2.2.1.mpr (by decide),
   (title_validator_underscore "text").2.2.2 (by decide)⟩

/- ## View layer (02_serializing_data_with_drf/blog/views.py) -/

/-- Stored blog record as seen by the CRUD views, restricted to the fields
the claims inspect. Identifiers are primary keys. -/
structure BlogRec where
  id : Nat
  title : String
  content : String
deriving DecidableEq, Repr

/-- Incoming POST payload: each model field may be present or missing. -/
structure BlogPayload where
  title : Option String
  content : Option String
deriving DecidableEq, Repr

/-- Field errors collected by `BlogSerializer.is_valid()`. The checks follow
the Blog model declarations (models.py): `title` is a required CharField with
`max_length=100` and `unique=True`, `content` is a required TextField. All
field errors are collected in one pass before any persistence. -/
def fieldErrors (store : List BlogRec) (p : BlogPayload) : List (String × String) :=
  (match p.title with
   | none => [("title", "This field is required.")]
   | some t =>
     (if 100 < t.length then
        [("title", "Ensure this field has no more than 100 characters.")]
      else []) ++
     (if store.any (fun b => b.title = t) then
        [("title", "blog with this title already exists.")]
      else [])) ++
  (match p.content with
   | none => [("content", "This field is required.")]
   | some _ => [])

/-- Body of a view response: a serialized record or structured errors. -/
inductive RespBody
  | blogData (b : BlogRec)
  | fieldFailures (e : List (String × String))
  | notFoundMsg (msg : String)
deriving DecidableEq, Repr

/-- HTTP response: status code plus body. -/
structure Resp where
  status : Nat
  body : RespBody
deriving DecidableEq, Repr

namespace BlogGetCreateView

/-- Embeds `BlogGetCreateView.post` (views.py): run serializer validation;
on success persist the new record and answer 201 with its representation,
on failure answer 400 with the collected errors and leave the store
unchanged. The fresh primary key is passed explicitly. -/
def post (store : List BlogRec) (nextId : Nat) (p : BlogPayload) : Resp × List BlogRec :=
  if fieldErrors store p = [] then
    let b : BlogRec := ⟨nextId, p.title.getD "", p.content.getD ""⟩
    (⟨201, RespBody.blogData b⟩, store ++ [b])
  else
    (⟨400, RespBody.fieldFailures (fieldErrors store p)⟩, store)

end BlogGetCreateView

namespace BlogDetailView

/-- Embeds `BlogDetailView.get` (views.py): `Blog.objects.get(pk=pk)` finds
the record with the given primary key; `Blog.DoesNotExist` is caught and
answered as 404 with a short error message. The function is total: no
exception escapes. -/
def get (store : List BlogRec) (pk : Nat) : Resp :=
  match store.find? (fun b => b.id = pk) with
  | some b => ⟨200, RespBody.blogData b⟩
  | none => ⟨404, RespBody.notFoundMsg "Blog not found"⟩

end BlogDetailView

/- ## Theorems for claims C3 and C4 -/

/-- C3: a POST whose payload passes validation persists exactly one new
record and answers 201 with the created representation; a POST whose payload
fails validation answers 400 with the collected field errors and leaves the
stored collection unchanged. -/
theorem blog_post_create_or_reject :
    ∀ (store : List BlogRec) (nextId : Nat) (p : BlogPayload),
      (fieldErrors store p = [] →
        (BlogGetCreateView.post store nextId p).1.status = 201 ∧
        (BlogGetCreateView.post store nextId p).1.body =
          RespBody.blogData ⟨nextId, p.title.getD "", p.content.getD ""⟩ ∧
        (BlogGetCreateView.post store nextId p).2 =
          store ++ [⟨nextId, p.title.getD "", p.content.getD ""⟩]) ∧
      (fieldErrors store p ≠ [] →
        (BlogGetCreateView.post store nextId p).1.status = 400 ∧
        (BlogGetCreateView.post store nextId p).1.body =
          RespBody.fieldFailures (fieldErrors store p) ∧
        (BlogGetCreateView.post store nextId p).2 = store) := by
  intro store nextId p
  constructor
  · intro h
    simp [BlogGetCreateView.post, h]
  · intro h
    simp [BlogGetCreateView.post, h]

/-- Witness for C3 at concrete inputs: a valid payload is persisted with
status 201, and a payload with a duplicate title is rejected with status 400
leaving the store unchanged. -/
theorem blog_post_create_or_reject_witness :
    (BlogGetCreateView.post [] 1 ⟨some "Hi", some "Body"⟩).1.status = 201 ∧
      (BlogGetCreateView.post [] 1 ⟨some "Hi", some "Body"⟩).2 = [⟨1, "Hi", "Body"⟩] ∧
      (BlogGetCreateView.post [⟨1, "Hi", "Body"⟩] 2 ⟨some "Hi", some "Other"⟩).1.status = 400 ∧
      (BlogGetCreateView.post [⟨1, "Hi", "Body"⟩] 2 ⟨some "Hi", some "Other"⟩).2 =
        [⟨1, "Hi", "Body"⟩] := by
  refine ⟨?_, ?_, ?_, ?_⟩
  · exact ((blog_post_create_or_reject [] 1 ⟨some "Hi", some "Body"⟩).1 (by decide)).1
  · exact ((blog_post_create_or_reject [] 1 ⟨some "Hi", some "Body"⟩).1 (by decide)).2.2
  · exact ((blog_post_create_or_reject [⟨1, "Hi", "Body"⟩] 2
      ⟨some "Hi", some "Other"⟩).2 (by decide)).1
  · exact ((blog_post_create_or_reject [⟨1, "Hi", "Body"⟩] 2
      ⟨some "Hi", some "Other"⟩).2 (by decide)).2.2

/-- C4: fetching a single blog by identifier answers 200 with the serialized
record when a record with that identifier exists, and answers 404 with the
short message "Blog not found" when none exists; the handler is a total
function, so no exception reaches the caller. -/
theorem blog_detail_get_found_or_404 :
    ∀ (store : List BlogRec) (pk : Nat),
      ((∃ b ∈ store, b.id = pk) →
        ∃ b ∈ store, b.id = pk ∧
          BlogDetailView.get store pk = ⟨200, RespBody.blogData b⟩) ∧
      ((∀ b ∈ store, b.id ≠ pk) →
        BlogDetailView.get store pk = ⟨404, RespBody.notFoundMsg "Blog not found"⟩) := by
  intro store pk
  constructor
  · intro h
    have hsome : (store.find? (fun b => b.id = pk)).isSome := by
      rw [List.find?_isSome]
      obtain ⟨b, hb, hid⟩ := h
      exact ⟨b, hb, by simp [hid]⟩
    obtain ⟨b, hb⟩ := Option.isSome_iff_exists.mp hsome
    refine ⟨b, List.mem_of_find?_eq_some hb, ?_, ?_⟩
    · have := List.find?_some hb
      simpa using this
    · simp [BlogDetailView.get, hb]
  · intro h
    have hnone : store.find? (fun b => b.id = pk) = none := by
      rw [List.find?_eq_none]
      intro b hb
      simp [h b hb]
    simp [BlogDetailView.get, hnone]

/-- Witness for C4 at concrete inputs: an existing identifier yields 200 with
the record, a missing identifier yields 404 with the error message. -/
theorem blog_detail_get_found_or_404_witness :
    BlogDetailView.get [⟨1, "Hi", "Body"⟩] 1 = ⟨200, RespBody.blogData ⟨1, "Hi", "Body"⟩⟩ ∧
      BlogDetailView.get [⟨1, "Hi", "Body"⟩] 7 =
        ⟨404, RespBody.notFoundMsg "Blog not found"⟩ := by
  constructor
  · obtain ⟨b, hb, hid, heq⟩ :=
      (blog_detail_get_found_or_404 [⟨1, "Hi", "Body"⟩] 1).1 ⟨⟨1, "Hi", "Body"⟩, by simp, rfl⟩
    have hb' : b = ⟨1, "Hi", "Body"⟩ := by simpa using hb
    rw [hb'] at heq
    exact heq
  · exact (blog_detail_get_found_or_404 [⟨1, "Hi", "Body"⟩] 7).2 (by decide)

/- ## Reporting command (03_django_admin/blog/management/commands/blog_count.py) -/

namespace Command

/-- Blog record as read by the reporting command: `content` may be missing
(`None`), matching the command's defensive `blog.content or ''`. Creation
timestamps are naive datetimes in whole seconds since day 0001-01-01. -/
structure Blog where
  id : Nat
  title : String
  content : Option String
  created_at : Nat
  author_full_name : Option String
deriving DecidableEq, Repr

/-- Embeds `Command.get_letter_count`: the number of alphabetic characters in
`blog.content or ''` (Python `str.isalpha` restricted to the letters the
repository's data uses). -/
def get_letter_count (blog : Blog) : Nat :=
  ((blog.content.getD "").toList.filter Char.isAlpha).length

/-- Gregorian leap-year rule, as in Python's datetime module. -/
def isLeap (y : Nat) : Bool :=
  (y % 4 == 0 && y % 100 != 0) || y % 400 == 0

/-- Number of days of month `m` in year `y` (Gregorian calendar). -/
def daysInMonth (y m : Nat) : Nat :=
  if m = 2 then (if isLeap y then 29 else 28)
  else if m = 4 ∨ m = 6 ∨ m = 9 ∨ m = 11 then 30
  else 31

/-- Splits a character list at every dash, keeping empty groups, mirroring
how the `%Y-%m-%d` format string separates its three numeric fields. -/
def splitDash : List Char → List (List Char)
  | [] => [[]]
  | c :: rest =>
    if c = '-' then [] :: splitDash rest
    else
      match splitDash rest with
      | [] => [[c]]
      | g :: gs => (c :: g) :: gs

/-- Decimal value of a digit list. -/
def digitsToNat (cs : List Char) : Nat :=
  cs.foldl (fun a c => a * 10 + (c.toNat - 48)) 0

/-- True when the list is a nonempty run of decimal digits. -/
def allDigits (cs : List Char) : Bool :=
  !cs.isEmpty && cs.all Char.isDigit

/-- Models Python's `datetime.strptime(s, "%Y-%m-%d")`: the string must be
year, month and day digit runs (at most 4, 2 and 2 digits) separated by
dashes, with the month in 1..12, the day valid for that month, and the year
at least datetime.MINYEAR = 1; any other string raises ValueError, embedded
as `none`. -/
def strptimeYMD (s : String) : Option (Nat × Nat × Nat) :=
  match splitDash s.toList with
  | [ys, ms, ds] =>
    if allDigits ys && ys.length ≤ 4 && allDigits ms && ms.length ≤ 2 &&
        allDigits ds && ds.length ≤ 2 then
      let y := digitsToNat ys
      let m := digitsToNat ms
      let d := digitsToNat ds
      if 1 ≤ y && 1 ≤ m && m ≤ 12 && 1 ≤ d && d ≤ daysInMonth y m then
        some (y, m, d)
      else none
    else none
  | _ => none

/-- Number of leap years in 1..y. -/
def leapCount (y : Nat) : Nat :=
  y / 4 + y / 400 - y / 100

/-- Days in all years before year `y` (year 1 is day 0). -/
def daysBeforeYear (y : Nat) : Nat :=
  365 * (y - 1) + leapCount (y - 1)

/-- Days in all months of year `y` before month `m`. -/
def daysBeforeMonth (y m : Nat) : Nat :=
  ((List.range (m - 1)).map (fun i => daysInMonth y (i + 1))).sum

/-- Timestamp, in seconds, of midnight at the start of the given date: the
value `datetime.strptime(s, "%Y-%m-%d")` denotes. -/
def midnightSeconds (y m d : Nat) : Nat :=
  (daysBeforeYear y + daysBeforeMonth y m + (d - 1)) * 86400

/-- Seconds added by `timezone.timedelta(days=1)`. -/
def secondsPerDay : Nat := 86400

/-- Exception kinds distinguished by `Command.handle`'s except clauses. -/
inductive Exc
  | valueError
  | objectDoesNotExist
  | other
deriving DecidableEq, Repr

/-- Parsed command-line arguments of `blog_count` (`--min-letters` has Python
type int and default 0; the date options are optional strings). -/
structure Args where
  min_letters : Int
  verbose : Bool
  start_date : Option String
  end_date : Option String
deriving DecidableEq, Repr

/-- Embeds the min-letters filter: when `min_letters > 0`, keep the records
whose id is in the list of ids of records with letter count at least
`min_letters` (`queryset.filter(id__in=[...])`); otherwise no filtering. -/
def minLettersFilter (n : Int) (qs : List Blog) : List Blog :=
  if 0 < n then
    let ids := (qs.filter (fun b => decide (n ≤ (get_letter_count b : Int)))).map
      (fun b => b.id)
    qs.filter (fun b => ids.contains b.id)
  else qs

/-- Embeds `if start_date: queryset.filter(created_at__gte=strptime(...))`;
an empty string is falsy in Python, so it skips the filter, and a malformed
string raises ValueError. -/
def startDateFilter (sd : Option String) (qs : List Blog) : Except Exc (List Blog) :=
  match sd with
  | none => Except.ok qs
  | some s =>
    if s = "" then Except.ok qs
    else
      match strptimeYMD s with
      | none => Except.error Exc.valueError
      | some (y, m, d) =>
        Except.ok (qs.filter (fun b => decide (midnightSeconds y m d ≤ b.created_at)))

/-- Embeds `if end_date: queryset.filter(created_at__lte=strptime(...) +
timedelta(days=1))`: the bound is inclusive at midnight one day after the
end date. -/
def endDateFilter (ed : Option String) (qs : List Blog) : Except Exc (List Blog) :=
  match ed with
  | none => Except.ok qs
  | some s =>
    if s = "" then Except.ok qs
    else
      match strptimeYMD s with
      | none => Except.error Exc.valueError
      | some (y, m, d) =>
        Except.ok (qs.filter
          (fun b => decide (b.created_at ≤ midnightSeconds y m d + secondsPerDay)))

/-- The queryset built inside the try block: min-letters filter, then
start-date filter, then end-date filter. -/
def filteredBlogs (args : Args) (store : List Blog) : Except Exc (List Blog) :=
  match startDateFilter args.start_date (minLettersFilter args.min_letters store) with
  | Except.error e => Except.error e
  | Except.ok qs => endDateFilter args.end_date qs

/-- One line written to stdout by the command, with the varying data each
formatted line carries. -/
inductive OutLine
  | header
  | detail (title : String) (created : Nat) (letters : Nat) (author : String)
  | total (n : Nat)
  | noBlogs
  | invalidDate
  | dbError
  | unexpected
deriving DecidableEq, Repr

/-- Embeds Python's `blog.author_full_name or "Unknown"` (missing or empty
is falsy). -/
def orUnknown : Option String → String
  | none => "Unknown"
  | some s => if s = "" then "Unknown" else s

/-- The per-record verbose detail line. -/
def detailLine (b : Blog) : OutLine :=
  OutLine.detail b.title b.created_at (get_letter_count b) (orUnknown b.author_full_name)

/-- Embeds the reporting tail of the try block: when the queryset is
nonempty, optionally the verbose header and one detail line per record, then
always the total line; when it is empty, only the no-blogs warning. -/
def report (verbose : Bool) (qs : List Blog) : List OutLine :=
  if qs.isEmpty then [OutLine.noBlogs]
  else
    (if verbose then OutLine.header :: qs.map detailLine else []) ++
      [OutLine.total qs.length]

/-- The whole try block of `Command.handle`: builds the filtered queryset
and produces the report, or raises. -/
def handleBody (args : Args) (store : List Blog) : Except Exc (List OutLine) :=
  match filteredBlogs args store with
  | Except.error e => Except.error e
  | Except.ok qs => Except.ok (report args.verbose qs)

/-- Embeds `Command.handle`: the try block with its three except clauses,
each turning an exception into a styled error line. -/
def handle (args : Args) (store : List Blog) : List OutLine :=
  match handleBody args store with
  | Except.ok ls => ls
  | Except.error Exc.valueError => [OutLine.invalidDate]
  | Except.error Exc.objectDoesNotExist => [OutLine.dbError]
  | Except.error Exc.other => [OutLine.unexpected]

/-- True when the output contains the total-count line. -/
def totalPrinted (ls : List OutLine) : Bool :=
  ls.any (fun l => match l with | OutLine.total _ => true | _ => false)

end Command

/- ## Theorems for claims C5, C6, C7 and C8 -/

/-- C5 (amended): with both dates well formed, a record passes the date
filters if and only if its creation timestamp is at least midnight of the
start date and AT MOST midnight one day after the end date (the upper bound
is inclusive, via `created_at__lte`). -/
theorem blog_count_date_window :
    ∀ (s e : String) (y1 m1 d1 y2 m2 d2 : Nat) (verbose : Bool)
      (store : List Command.Blog),
      Command.strptimeYMD s = some (y1, m1, d1) →
      Command.strptimeYMD e = some (y2, m2, d2) →
      ∃ qs, Command.filteredBlogs ⟨0, verbose, some s, some e⟩ store = Except.ok qs ∧
        ∀ b, b ∈ qs ↔ b ∈ store ∧
          Command.midnightSeconds y1 m1 d1 ≤ b.created_at ∧
          b.created_at ≤ Command.midnightSeconds y2 m2 d2 + Command.secondsPerDay := by
  intro s e y1 m1 d1 y2 m2 d2 verbose store h1 h2
  have hzero : Command.strptimeYMD "" = none := by decide
  have hs : ¬ s = "" := by
    intro h
    rw [h, hzero] at h1
    exact Option.noConfusion h1
  have he : ¬ e = "" := by
    intro h
    rw [h, hzero] at h2
    exact Option.noConfusion h2
  refine ⟨(store.filter
      (fun b => decide (Command.midnightSeconds y1 m1 d1 ≤ b.created_at))).filter
      (fun b => decide (b.created_at ≤
        Command.midnightSeconds y2 m2 d2 + Command.secondsPerDay)), ?_, ?_⟩
  · simp [Command.filteredBlogs, Command.minLettersFilter, Command.startDateFilter,
      Command.endDateFilter, hs, he, h1, h2]
  · intro b
    simp only [List.mem_filter, decide_eq_true_eq]
    tauto

/-- Witness for C5's amended theorem at concrete well-formed dates. -/
theorem blog_count_date_window_witness :
    ∃ qs, Command.filteredBlogs ⟨0, false, some "2024-01-01", some "2024-01-31"⟩
        [⟨1, "a", none, Command.midnightSeconds 2024 1 15, none⟩] = Except.ok qs ∧
      ∀ b, b ∈ qs ↔ b ∈ [⟨1, "a", none, Command.midnightSeconds 2024 1 15, none⟩] ∧
        Command.midnightSeconds 2024 1 1 ≤ b.created_at ∧
        b.created_at ≤ Command.midnightSeconds 2024 1 31 + Command.secondsPerDay :=
  blog_count_date_window "2024-01-01" "2024-01-31" 2024 1 1 2024 1 31 false
    [⟨1, "a", none, Command.midnightSeconds 2024 1 15, none⟩] (by decide) (by decide)

/-- Counterexample to C5 as stated: with `--start-date 2024-01-01 --end-date
2024-01-31`, a record created exactly at midnight of 2024-02-01 (E plus one
day) is NOT strictly before the claimed exclusive bound, yet the command
counts it: the code's upper bound is inclusive. -/
theorem blog_count_end_date_counterexample :
    Command.handle ⟨0, false, some "2024-01-01", some "2024-01-31"⟩
        [⟨1, "boundary", some "text", Command.midnightSeconds 2024 2 1, none⟩] =
      [Command.OutLine.total 1] ∧
      ¬ Command.midnightSeconds 2024 2 1 <
          Command.midnightSeconds 2024 1 31 + Command.secondsPerDay := by
  decide

/-- C6 (amended): when the filters succeed, an empty matching set produces
only the no-blogs warning (no total line), and a nonempty matching set
produces, in verbose mode, the header and exactly one detail line per
matching record in order, always followed by the total-count line. -/
theorem blog_count_report_shape :
    ∀ (args : Command.Args) (store qs : List Command.Blog),
      Command.filteredBlogs args store = Except.ok qs →
      (qs = [] → Command.handle args store = [Command.OutLine.noBlogs]) ∧
      (qs ≠ [] →
        Command.handle args store =
          (if args.verbose then Command.OutLine.header :: qs.map Command.detailLine
           else []) ++ [Command.OutLine.total qs.length] ∧
        Command.totalPrinted (Command.handle args store) = true) := by
  intro args store qs h
  constructor
  · intro hq
    subst hq
    simp [Command.handle, Command.handleBody, h, Command.report]
  · intro hq
    have hrep : Command.handle args store =
        (if args.verbose then Command.OutLine.header :: qs.map Command.detailLine
         else []) ++ [Command.OutLine.total qs.length] := by
      cases qs with
      | nil => exact absurd rfl hq
      | cons a l =>
        simp [Command.handle, Command.handleBody, h, Command.report]
    refine ⟨hrep, ?_⟩
    rw [hrep]
    simp [Command.totalPrinted]

/-- Witness for C6's amended theorem: the empty store yields only the
warning line; a one-record store in verbose mode yields the header, one
detail line and the total line. -/
theorem blog_count_report_shape_witness :
    Command.handle ⟨0, true, none, none⟩ [] = [Command.OutLine.noBlogs] ∧
      Command.handle ⟨0, true, none, none⟩ [⟨1, "t", some "abc", 0, none⟩] =
        [Command.OutLine.header, Command.OutLine.detail "t" 0 3 "Unknown",
          Command.OutLine.total 1] := by
  constructor
  · exact (blog_count_report_shape ⟨0, true, none, none⟩ [] [] rfl).1 rfl
  · have h := ((blog_count_report_shape ⟨0, true, none, none⟩
      [⟨1, "t", some "abc", 0, none⟩] [⟨1, "t", some "abc", 0, none⟩]
      rfl).2 (by decide)).1
    rw [h]
    decide

/-- Counterexample to C6 as stated: on an empty matching set the command
prints only the no-blogs warning; the total count is NOT printed, though the
claim requires it in every run. -/
theorem blog_count_total_counterexample :
    Command.handle ⟨0, true, none, none⟩ [] = [Command.OutLine.noBlogs] ∧
      Command.totalPrinted (Command.handle ⟨0, true, none, none⟩ []) = false := by
  decide

/-- C7: with distinct primary keys, `--min-letters N` for N > 0 keeps exactly
the records whose letter count (alphabetic characters of the content, zero
for a missing content) is at least N; N = 0 performs no letter-count
filtering. -/
theorem blog_count_min_letters_filter :
    ∀ (n : Int) (verbose : Bool) (store : List Command.Blog),
      ((store.map Command.Blog.id).Nodup → 0 < n →
        ∃ qs, Command.filteredBlogs ⟨n, verbose, none, none⟩ store = Except.ok qs ∧
          ∀ b, b ∈ qs ↔ b ∈ store ∧ n ≤ (Command.get_letter_count b : Int)) ∧
      (n = 0 → Command.filteredBlogs ⟨n, verbose, none, none⟩ store = Except.ok store) ∧
      (∀ (id : Nat) (title : String) (created : Nat) (author : Option String),
        Command.get_letter_count ⟨id, title, none, created, author⟩ = 0) := by
  intro n verbose store
  refine ⟨?_, ?_, ?_⟩
  · intro hnodup hn
    refine ⟨Command.minLettersFilter n store, ?_, ?_⟩
    · simp [Command.filteredBlogs, Command.startDateFilter, Command.endDateFilter]
    · intro b
      rw [Command.minLettersFilter, if_pos hn]
      constructor
      · intro hb
        obtain ⟨hbs, hbc⟩ := List.mem_filter.mp hb
        have hid : b.id ∈ (store.filter
            (fun x => decide (n ≤ (Command.get_letter_count x : Int)))).map
            (fun x => x.id) := by
          simpa using hbc
        obtain ⟨b', hb', hbid⟩ := List.mem_map.mp hid
        obtain ⟨hb's, hb'c⟩ := List.mem_filter.mp hb'
        have : b' = b := List.inj_on_of_nodup_map hnodup hb's hbs hbid
        subst this
        exact ⟨hbs, by simpa using hb'c⟩
      · intro ⟨hbs, hbc⟩
        refine List.mem_filter.mpr ⟨hbs, ?_⟩
        have : b.id ∈ (store.filter
            (fun x => decide (n ≤ (Command.get_letter_count x : Int)))).map
            (fun x => x.id) :=
          List.mem_map.mpr ⟨b, List.mem_filter.mpr ⟨hbs, by simpa using hbc⟩, rfl⟩
        simpa using this
  · intro h
    subst h
    simp [Command.filteredBlogs, Command.minLettersFilter, Command.startDateFilter,
      Command.endDateFilter]
  · intro id title created author
    rfl

/-- Witness for C7 at a concrete store with distinct ids: the record with
three letters survives `--min-letters 3`, and `--min-letters 0` filters
nothing. -/
theorem blog_count_min_letters_filter_witness :
    (∃ qs, Command.filteredBlogs ⟨3, false, none, none⟩
        [⟨1, "t", some "abc", 0, none⟩, ⟨2, "u", some "a1", 0, none⟩] = Except.ok qs ∧
      ∀ b, b ∈ qs ↔
        b ∈ [⟨1, "t", some "abc", 0, none⟩, ⟨2, "u", some "a1", 0, none⟩] ∧
          (3 : Int) ≤ (Command.get_letter_count b : Int)) ∧
      Command.filteredBlogs ⟨0, false, none, none⟩ [⟨1, "t", some "abc", 0, none⟩] =
        Except.ok [⟨1, "t", some "abc", 0, none⟩] :=
  ⟨(blog_count_min_letters_filter 3 false
      [⟨1, "t", some "abc", 0, none⟩, ⟨2, "u", some "a1", 0, none⟩]).1
      (by decide) (by decide),
   (blog_count_min_letters_filter 0 false [⟨1, "t", some "abc", 0, none⟩]).2.1 rfl⟩

/-- C8: `Command.handle` never propagates an exception: a successful try
block's output is returned as is, a ValueError becomes the invalid-date
error line, an ObjectDoesNotExist becomes the database error line, any other
exception becomes the generic unexpected-error line, and a present,
nonempty, malformed start date indeed reports the invalid-date line. -/
theorem blog_count_handle_catches :
    ∀ (args : Command.Args) (store : List Command.Blog),
      (∀ ls, Command.handleBody args store = Except.ok ls →
        Command.handle args store = ls) ∧
      (Command.handleBody args store = Except.error Command.Exc.valueError →
        Command.handle args store = [Command.OutLine.invalidDate]) ∧
      (Command.handleBody args store = Except.error Command.Exc.objectDoesNotExist →
        Command.handle args store = [Command.OutLine.dbError]) ∧
      (Command.handleBody args store = Except.error Command.Exc.other →
        Command.handle args store = [Command.OutLine.unexpected]) ∧
      (∀ s, args.start_date = some s → ¬ s = "" → Command.strptimeYMD s = none →
        Command.handle args store = [Command.OutLine.invalidDate]) := by
  intro args store
  refine ⟨?_, ?_, ?_, ?_, ?_⟩
  · intro ls h
    simp [Command.handle, h]
  · intro h
    simp [Command.handle, h]
  · intro h
    simp [Command.handle, h]
  · intro h
    simp [Command.handle, h]
  · intro s hsd hne hbad
    have hb : Command.handleBody args store = Except.error Command.Exc.valueError := by
      simp [Command.handleBody, Command.filteredBlogs, Command.startDateFilter,
        hsd, hne, hbad]
    simp [Command.handle, hb]

/-- Witness for C8 at a concrete malformed date: month 99 is rejected by the
date parser and reported as the invalid-date error line. -/
theorem blog_count_handle_catches_witness :
    Command.handle ⟨0, false, some "2024-99-01", none⟩ [] =
      [Command.OutLine.invalidDate] :=
  (blog_count_handle_catches ⟨0, false, some "2024-99-01", none⟩ []).2.2.2.2
    "2024-99-01" rfl (by decide) (by decide)

/- ## Admin layer (03_django_admin and 04_authentication_and_authorizations
blog/admin.py) -/

namespace CustomPaginator

/-- Embeds `CustomPaginator.count` (admin.py, identical in both chapters):
the cached count property returns the constant 9999999 whatever the object
list holds; it never inspects the records. -/
def count (object_list : List Command.Blog) : Nat := 9999999

end CustomPaginator

/-- Embeds `BlogAdmin.list_per_page` (admin.py): the fixed admin page size. -/
def BlogAdmin_list_per_page : Nat := 3

namespace BlogAdmin

/-- Embeds `BlogAdmin.print_blog_titles` (04 admin.py) with explicit state
passing: the action collects the selected records' titles, joins them after
the fixed prefix text, and sends the message to the admin UI; it issues no
ORM write, so the stored state component passes through untouched. -/
def print_blog_titles (store : List Command.Blog) (queryset : List Command.Blog) :
    List Command.Blog × String :=
  let titles := queryset.map (fun b => b.title)
  let message := "Selected Blog Titles: " ++ String.intercalate ", " titles
  (store, message)

end BlogAdmin

/- ## Theorems for claims C9 and C10 -/

/-- C9: the admin blog list page size is the constant 3, and the paginator's
total-count override returns the constant 9999999 for every record set,
in particular never the actual record count when the set is empty. -/
theorem admin_pagination_constants :
    BlogAdmin_list_per_page = 3 ∧
      (∀ l : List Command.Blog, CustomPaginator.count l = 9999999) ∧
      CustomPaginator.count [] ≠ ([] : List Command.Blog).length := by
  refine ⟨rfl, fun l => rfl, by decide⟩

/-- C10: for every stored state and selection, the bulk action reports
exactly the message "Selected Blog Titles: " followed by the selected titles
joined by ", " in selection order, and the stored state is unchanged. -/
theorem print_blog_titles_spec :
    ∀ (store queryset : List Command.Blog),
      (BlogAdmin.print_blog_titles store queryset).1 = store ∧
      (BlogAdmin.print_blog_titles store queryset).2 =
        "Selected Blog Titles: " ++
          String.intercalate ", " (queryset.map (fun b => b.title)) := by
  intro store queryset
  exact ⟨rfl, rfl⟩

end DjangoInProduction
